import Mathlib

set_option autoImplicit false

namespace NanovdbEditor

/-!
Shallow embedding of the nanovdb-editor core: token interning, the scene
object registry, the shader-parameter synchronization protocol, the compute
dispatch layer, and the Python wrapper methods of
src/pymodule/nanovdb_editor/editor.py.  The native backend
(libpnanovdbeditor) is not part of the Python sources; where a claim is
decided by that missing code, the corresponding definition is modelled from
the specification text and marked as such in its doc comment.
-/

/-! ## Token interner -/

/-- A token as exposed by the editor API: a stable id plus the interned
text.  Mirrors the `id`/`str` fields checked in
src/pytests/test_editor_api_2.py (test_get_token). -/
structure EditorToken where
  id : Nat
  str : String
  deriving DecidableEq, Repr

/-- Modelled from the spec: the native token interner behind
`Editor.get_token` is not in the Python sources.  Spec section 3 and 4.1: a
grow-only table mapping names to stable ids; identical text yields identical
id, distinct text distinct id, ids never reused.  The state is the list of
interned names in insertion order; a token id is the index of its name. -/
structure TokenInterner where
  names : List String
  deriving DecidableEq, Repr

/-- Index of the first occurrence of a name in the interner table. -/
def findName : List String → String → Option Nat
  | [], _ => none
  | m :: rest, n => if m = n then some 0 else (findName rest n).map (· + 1)

/-- Modelled from the spec: `intern(name) -> Token` (spec 4.1), the lookup
behind `Editor.get_token`.  Returns the existing token when the name is
found, otherwise appends the name and returns a fresh id. -/
def get_token (it : TokenInterner) (n : String) : TokenInterner × EditorToken :=
  match findName it.names n with
  | some i => (it, ⟨i, n⟩)
  | none => (⟨it.names ++ [n]⟩, ⟨it.names.length, n⟩)

/-! ## Scene object registry -/

/-- A registry key: the ids of the `(scene_token, object_token)` pair. -/
abbrev SceneKey := Nat × Nat

/-- Kind discriminator for the tagged scene-object variants (spec 3). -/
inductive ObjectKind
  | volumeGrid
  | rawArray
  | gaussianSplatSet
  | image2D
  deriving DecidableEq, Repr

/-- Modelled from the spec: a registry record (spec 3, "Scene Object"):
kind tag, referenced buffer handles, variant metadata, and the optional
shader parameter block used by map_params / unmap_params (spec 4.4). -/
structure ObjectRecord where
  kind : ObjectKind
  payload : List Nat
  metadata : Nat
  shaderParams : Option (List Nat)
  deriving DecidableEq, Repr

/-- Modelled from the spec: the per-scene object registry (spec 4.3), an
association list keyed by `(scene_token, object_token)`. -/
abbrev Registry := List (SceneKey × ObjectRecord)

/-- Lookup of the first record stored under a key (spec 4.3 `get`). -/
def regGet : Registry → SceneKey → Option ObjectRecord
  | [], _ => none
  | (k, r) :: rest, key => if k = key then some r else regGet rest key

/-- Modelled from the spec: `remove(scene_token, object_token)` detaches the
record under the key; removing an absent key is a no-op (spec 4.3). -/
def regRemove : Registry → SceneKey → Registry
  | [], _ => []
  | (k, r) :: rest, key =>
    if k = key then regRemove rest key else (k, r) :: regRemove rest key

/-- Modelled from the spec: the publish step of `add` — insert or replace
the record under the key with a single visible swap (spec 4.3). -/
def regAdd : Registry → SceneKey → ObjectRecord → Registry
  | [], key, r => [(key, r)]
  | (k, r0) :: rest, key, r =>
    if k = key then (key, r) :: rest else (k, r0) :: regAdd rest key r

/-! ## Atomic replacement (spec 4.3): the new record is constructed fully
off to the side and published with one visible swap. -/

/-- One primitive step of the `add` operation: the staging steps build the
new record in a private draft, and only `publish` touches the registry. -/
inductive AddStep
  | stageKind
  | stagePayload
  | stageMetadata
  | stageShaderParams
  | publish
  deriving DecidableEq, Repr

/-- Private staging area used while constructing a record off to the side. -/
structure DraftRecord where
  kind : Option ObjectKind
  payload : Option (List Nat)
  metadata : Option Nat
  shaderParams : Option (Option (List Nat))
  deriving DecidableEq, Repr

/-- The empty draft every `add` starts from. -/
def emptyDraft : DraftRecord := ⟨none, none, none, none⟩

/-- Assembles a fully staged draft into a record; incomplete drafts cannot
be published. -/
def assembleDraft (d : DraftRecord) : Option ObjectRecord :=
  match d.kind, d.payload, d.metadata, d.shaderParams with
  | some k, some p, some m, some sp => some ⟨k, p, m, sp⟩
  | _, _, _, _ => none

/-- Modelled from the spec: the step function of `add` (spec 4.3).  The
state is the visible registry together with the private draft; staging
steps leave the registry untouched and `publish` performs the single
visible swap of the assembled record. -/
def applyAddStep (key : SceneKey) (newRec : ObjectRecord)
    (s : Registry × DraftRecord) : AddStep → Registry × DraftRecord
  | .stageKind => (s.1, { s.2 with kind := some newRec.kind })
  | .stagePayload => (s.1, { s.2 with payload := some newRec.payload })
  | .stageMetadata => (s.1, { s.2 with metadata := some newRec.metadata })
  | .stageShaderParams => (s.1, { s.2 with shaderParams := some newRec.shaderParams })
  | .publish =>
    match assembleDraft s.2 with
    | some r => (regAdd s.1 key r, s.2)
    | none => (s.1, s.2)

/-- The ordered primitive steps of one `add` call. -/
def addSteps : List AddStep :=
  [.stageKind, .stagePayload, .stageMetadata, .stageShaderParams, .publish]

/-- Every registry state visible to a concurrent reader during one `add`:
the snapshot before the call and after each primitive step. -/
def addObserved (reg : Registry) (key : SceneKey) (newRec : ObjectRecord) :
    List Registry :=
  ((addSteps.scanl (applyAddStep key newRec) (reg, emptyDraft)).map Prod.fst)

/-! ## Shader parameter mapping (spec 4.4) -/

/-- Modelled from the spec: the editor-side state relevant to `map_params`
and `unmap_params` (spec 4.4): the registry plus the set of keys whose
front slot is currently mapped. -/
structure ParamState where
  registry : Registry
  mapped : List SceneKey
  deriving DecidableEq, Repr

/-- Modelled from the spec: `map_params(scene_token, object_token, ...) ->
pointer | None` (spec 4.4).  Returns `none` — not an error — when the
addressed object is absent or has no parameter block; on success it
returns the front-slot payload and records the mapping. -/
def map_params (s : ParamState) (key : SceneKey) :
    Option (List Nat) × ParamState :=
  match regGet s.registry key with
  | none => (none, s)
  | some r =>
    match r.shaderParams with
    | none => (none, s)
    | some block => (some block, { s with mapped := key :: s.mapped })

/-- Modelled from the spec: `unmap_params` (spec 4.4); unmap without a
prior successful map is a no-op. -/
def unmap_params (s : ParamState) (key : SceneKey) : ParamState :=
  if key ∈ s.mapped then
    { s with mapped := s.mapped.filter (fun k => decide (k ≠ key)) }
  else s

/-! ## Parameter synchronization protocol and stop (spec 4.4, 5) -/

/-- The per-object synchronization states of spec 4.4. -/
inductive ShaderParamsSyncState
  | idle
  | setup
  | dispatched
  | syncRequested
  | synced
  deriving DecidableEq, Repr

/-- Modelled from the spec: the render/compute loop state a waiting caller
interacts with — whether the loop is running and the pending sync state. -/
structure RenderLoop where
  running : Bool
  syncState : ShaderParamsSyncState
  deriving DecidableEq, Repr

/-- Result of a bounded wait (spec 4.4, 5, 7). -/
inductive WaitOutcome
  | synced
  | renderLoopStopped
  | syncTimeout
  deriving DecidableEq, Repr

/-- Modelled from the spec: one iteration of the render/compute loop
advancing the pending parameter swap towards `synced` (spec 4.4). -/
def renderLoopStep : ShaderParamsSyncState → ShaderParamsSyncState
  | .setup => .dispatched
  | .dispatched => .syncRequested
  | .syncRequested => .synced
  | s => s

/-- Modelled from the spec: `wait_for_shader_params_sync` (spec 4.4, 5).
The wait is fuel-bounded: if the render loop is not running it returns
immediately with `renderLoopStopped`; otherwise it observes the loop until
the swap is applied (`synced`, then the state returns to `idle`) or the
bound is exhausted (`syncTimeout`). -/
def wait_for_shader_params_sync (fuel : Nat) (env : RenderLoop) :
    WaitOutcome × RenderLoop :=
  if env.running = false then (.renderLoopStopped, env)
  else
    match fuel with
    | 0 => (.syncTimeout, env)
    | Nat.succ fuel =>
      match env.syncState with
      | .synced => (.synced, { env with syncState := .idle })
      | .idle => (.synced, env)
      | s => wait_for_shader_params_sync fuel { env with syncState := renderLoopStep s }

/-- Modelled from the spec: `stop()` on the editor halts the render loop;
it must be idempotent (spec 5). -/
def editorStop (env : RenderLoop) : RenderLoop :=
  { env with running := false }

/-! ## Compute dispatch backend (spec 4.5)

The shader kernels (src/pytests/shaders) and the native compute backend are
not in the Python sources; the dispatch semantics below are modelled from
spec 4.5 together with the behaviour documented and asserted by the
committed tests src/pytests/test_dispatch.py and src/pytests/test_matrix.py. -/

/-- The two execution targets of `CompileTarget` (src compiler wrapper):
VULKAN and CPU. -/
inductive CompileTarget
  | vulkan
  | cpu
  deriving DecidableEq, Repr

/-- Modelled from the spec: the per-thread body of the add-constant kernel
shaders/test.slang ("add constant" kernel, spec 8): thread `tid` writes
`input[tid] + c` to the output buffer; out-of-range threads write nothing. -/
def test_slang_thread (c : Int) (inp : List Int) (outBuf : List Int)
    (tid : Nat) : List Int :=
  match inp[tid]? with
  | some v => outBuf.set tid (v + c)
  | none => outBuf

/-- Modelled from the spec: the GPU dispatch of the add-constant kernel
(`dispatch_shader_on_array`, test_dispatch.py test_vulkan_dispatch): a flat
grid of `groups * threadsPerGroup` threads each running the kernel body. -/
def vulkan_dispatch_add (c : Int) (inp outBuf : List Int)
    (groups threadsPerGroup : Nat) : List Int :=
  (List.range (groups * threadsPerGroup)).foldl (test_slang_thread c inp) outBuf

/-- Modelled from the spec: the CPU execution of the same kernel
(`execute_cpu`, test_dispatch.py test_cpu_dispatch): groups are executed
sequentially, each running its threads in order with the same body. -/
def cpu_execute_add (c : Int) (inp outBuf : List Int)
    (groups threadsPerGroup : Nat) : List Int :=
  (List.range groups).foldl
    (fun buf g =>
      (List.range threadsPerGroup).foldl
        (fun b t => test_slang_thread c inp b (g * threadsPerGroup + t)) buf)
    outBuf

/-- The two matrix test kernels of src/pytests/test_matrix.py:
`construct` is shaders/test_matrix.slang (the kernel builds its own 4x4
matrix), `readIn` is shaders/test_matrix_in.slang (the kernel reads the
matrix from the constants buffer). -/
inductive MatrixShader
  | construct
  | readIn
  deriving DecidableEq, Repr

/-- The host constants buffer of test_matrix.py: a 4x4 matrix initialized
in row-major order with the values `0..15`
(`np.arange(16, dtype=np.float32)`; all values are exactly representable,
so they are embedded as integers). -/
def constants_data (i : Nat) : Int := Int.ofNat i

/-- Modelled from the spec: input marshalling of a matrix-typed constants
buffer (spec 4.5 `layout_options.row_major`).  With `row_major = true` the
kernel-visible element `(r, c)` is host element `r*4 + c`; with
`row_major = false` the host data is interpreted column-major, so element
`(r, c)` is host element `c*4 + r`. -/
def marshalledConstantMatrix (is_row_major : Bool) (host : Nat → Int)
    (r c : Nat) : Int :=
  if is_row_major then host (r * 4 + c) else host (c * 4 + r)

/-- The dispatched output of the matrix test kernels, per target and
row-major flag, as documented and asserted by src/pytests/test_matrix.py
(comments at lines 29-39 and `_assert_matrix_result`, which applies the
same expectation to the VULKAN and CPU cases of `TEST_CASES`):
the construct kernel fills the output with its row-major matrix regardless
of the flag and target (`out[r*4+c] = r*4+c`), and the read kernel stores
the marshalled constants matrix row-major (`out[r*4+c] = matrix[r][c]`). -/
def dispatch_matrix (shader : MatrixShader) (_target : CompileTarget)
    (is_row_major : Bool) (host : Nat → Int) : Nat → Int :=
  match shader with
  | .construct => fun idx => Int.ofNat idx
  | .readIn => fun idx => marshalledConstantMatrix is_row_major host (idx / 4) (idx % 4)

/-- The index mapping asserted by `TestMatrix._assert_matrix_result`
(src/pytests/test_matrix.py lines 69-78): the output index at which the
source element `idx` is expected, i.e. `col*4 + row` for the read kernel
without row-major, and the identity otherwise. -/
def idx_mapped (shader : MatrixShader) (is_row_major : Bool) (idx : Nat) : Nat :=
  match shader, is_row_major with
  | .readIn, false => (idx % 4) * 4 + idx / 4
  | _, _ => idx

/-- Modelled from the spec claim (spec 4.5, second half): the output a
matrix-constructing CPU kernel would produce with `row_major = false` if
the flag affected write marshalling symmetrically — the constructed
row-major matrix written in column-major order, so
`out[c*4 + r] = matrix[r][c] = r*4 + c`. -/
def specClaimedCpuConstructOutput (idx : Nat) : Int :=
  Int.ofNat ((idx % 4) * 4 + idx / 4)

/-! ## Python wrapper: Editor.show, Editor.start, Editor.__del__
(src/pymodule/nanovdb_editor/editor.py) -/

/-- The editor config structure of editor.py (`pnanovdb_EditorConfig`). -/
structure EditorConfig where
  ip_address : String
  port : Int
  headless : Int
  streaming : Int
  deriving DecidableEq, Repr

/-- The default config built by `Editor.show` / `Editor.start` when called
with `config=None` (editor.py lines 188-194 and 204-210). -/
def defaultEditorConfig : EditorConfig :=
  { ip_address := "127.0.0.1", port := 8080, headless := 0, streaming := 0 }

/-- A Python exception value, as caught by `except Exception`. -/
inductive PyError
  | exc (msg : String)
  deriving DecidableEq, Repr

/-- The message text of a caught exception. -/
def pyErrorText : PyError → String
  | .exc m => m

/-- Observable outcome of one `Editor.show` / `Editor.start` call: the
error lines printed, the exception propagated to the caller (if any), and
the config the native function was invoked with (if it was reached). -/
structure CallOutcome where
  printed : List String
  raised : Option PyError
  invoked : Option EditorConfig
  deriving DecidableEq, Repr

/-- Embedding of `Editor.show` (editor.py lines 184-197).  The body of the
`try` block builds the default config when `config is None`, fetches the
device (`self._compute.device_interface().get_device()`, modelled by the
`getDevice` oracle), and invokes the native `show` function (the `native`
oracle); any exception from the body is caught and printed as
`Error: Editor runtime error (...)`, and the method returns normally. -/
def editorShow (config : Option EditorConfig)
    (getDevice : Except PyError Nat)
    (native : Nat → EditorConfig → Except PyError Unit) : CallOutcome :=
  let cfg := config.getD defaultEditorConfig
  match getDevice with
  | .error e =>
    { printed := ["Error: Editor runtime error (" ++ pyErrorText e ++ ")"],
      raised := none, invoked := none }
  | .ok dev =>
    match native dev cfg with
    | .ok _ => { printed := [], raised := none, invoked := some cfg }
    | .error e =>
      { printed := ["Error: Editor runtime error (" ++ pyErrorText e ++ ")"],
        raised := none, invoked := some cfg }

/-- Embedding of `Editor.start` (editor.py lines 199-213); identical
structure to `editorShow` with the message `Error: Editor start error`. -/
def editorStart (config : Option EditorConfig)
    (getDevice : Except PyError Nat)
    (native : Nat → EditorConfig → Except PyError Unit) : CallOutcome :=
  let cfg := config.getD defaultEditorConfig
  match getDevice with
  | .error e =>
    { printed := ["Error: Editor start error (" ++ pyErrorText e ++ ")"],
      raised := none, invoked := none }
  | .ok dev =>
    match native dev cfg with
    | .ok _ => { printed := [], raised := none, invoked := some cfg }
    | .error e =>
      { printed := ["Error: Editor start error (" ++ pyErrorText e ++ ")"],
        raised := none, invoked := some cfg }

/-- The native entry points an `Editor` wrapper method may call. -/
inductive NativeCall
  | shutdown
  | stop
  deriving DecidableEq, Repr

/-- The Python-side state of an `Editor` wrapper relevant to destruction:
`self._editor`, the pointer to the native interface (None once cleared). -/
structure PyEditor where
  editorHandle : Option Nat
  deriving DecidableEq, Repr

/-- Embedding of `Editor.__del__` (editor.py lines 226-232): when
`self._editor` is still set it calls `self.shutdown()` — a call into the
native backend — then clears `self._editor`; every exception is swallowed.
The result is the list of native calls made plus the state afterwards. -/
def editorDel (s : PyEditor) : List NativeCall × PyEditor :=
  match s.editorHandle with
  | some _ => ([NativeCall.shutdown], { editorHandle := none })
  | none => ([], { editorHandle := none })

/-- The reference clearing the tests perform before teardown
("Prevent destructor from calling into native lib during shutdown",
src/pytests/test_dispatch.py lines 91-93 and src/pytests/conftest.py):
the native handles are nulled so later destructors find nothing to call. -/
def clearNativeRefs (_s : PyEditor) : PyEditor :=
  { editorHandle := none }

/-! ## Lemmas about the token interner -/

theorem findName_some_lt {l : List String} {n : String} {i : Nat}
    (h : findName l n = some i) : i < l.length := by
  induction l generalizing i with
  | nil => simp [findName] at h
  | cons m rest ih =>
    rw [List.length_cons]
    by_cases hm : m = n
    · simp [findName, hm] at h
      omega
    · simp [findName, hm] at h
      obtain ⟨j, hj, rfl⟩ := h
      have := ih hj
      omega

theorem findName_some_getElem {l : List String} {n : String} {i : Nat}
    (h : findName l n = some i) : l[i]? = some n := by
  induction l generalizing i with
  | nil => simp [findName] at h
  | cons m rest ih =>
    by_cases hm : m = n
    · simp [findName, hm] at h
      subst h
      simp [hm]
    · simp [findName, hm] at h
      obtain ⟨j, hj, rfl⟩ := h
      simpa using ih hj

theorem findName_append {l l2 : List String} {n : String} :
    findName (l ++ l2) n =
      match findName l n with
      | some i => some i
      | none => (findName l2 n).map (· + l.length) := by
  induction l with
  | nil => simp [findName]
  | cons m rest ih =>
    by_cases hm : m = n
    · simp [findName, hm]
    · have hstep : findName ((m :: rest) ++ l2) n
        = (findName (rest ++ l2) n).map (· + 1) := by
        simp [findName, hm]
      rw [hstep, ih]
      cases h : findName rest n with
      | some i => simp [findName, hm, h]
      | none =>
        cases h2 : findName l2 n with
        | some j => simp [findName, hm, h, h2, Nat.add_assoc]
        | none => simp [findName, hm, h, h2]

theorem getElem_append_left {α : Type} (l1 l2 : List α) (i : Nat)
    (h : i < l1.length) : (l1 ++ l2)[i]? = l1[i]? := by
  induction l1 generalizing i with
  | nil => simp at h
  | cons a rest ih =>
    cases i with
    | zero => simp
    | succ j =>
      simp only [List.cons_append, List.getElem?_cons_succ]
      exact ih j (by simpa using h)

theorem get_token_sound (it : TokenInterner) (n : String) :
    ((get_token it n).1).names[(get_token it n).2.id]? = some n := by
  unfold get_token
  cases h : findName it.names n with
  | some i => simpa using findName_some_getElem h
  | none => simp

theorem get_token_id_lt (it : TokenInterner) (n : String) :
    (get_token it n).2.id < ((get_token it n).1).names.length := by
  unfold get_token
  cases h : findName it.names n with
  | some i => simpa using findName_some_lt h
  | none => simp

theorem get_token_extends (it : TokenInterner) (n : String) :
    ∃ tail, ((get_token it n).1).names = it.names ++ tail := by
  unfold get_token
  cases h : findName it.names n with
  | some i => exact ⟨[], by simp⟩
  | none => exact ⟨[n], by simp⟩

/-- C1: token interning is deterministic and injective — a repeated
`get_token` with the same name on the same interner returns the same id
and the same stored string, and sequential `get_token` calls with distinct
names return distinct ids. -/
theorem get_token_deterministic_injective
    (it : TokenInterner) (n n1 n2 : String) (hne : n1 ≠ n2) :
    ((get_token (get_token it n).1 n).2.id = (get_token it n).2.id
      ∧ (get_token (get_token it n).1 n).2.str = (get_token it n).2.str)
    ∧ (get_token (get_token it n1).1 n2).2.id ≠ (get_token it n1).2.id := by
  constructor
  · cases h : findName it.names n with
    | some i =>
      unfold get_token
      simp [h]
    | none =>
      have h2 : findName (it.names ++ [n]) n = some it.names.length := by
        rw [findName_append, h]
        simp [findName]
      unfold get_token
      simp [h, h2]
  · intro hid
    have hs1 : ((get_token it n1).1).names[(get_token it n1).2.id]? = some n1 :=
      get_token_sound it n1
    have hlt : (get_token it n1).2.id < ((get_token it n1).1).names.length :=
      get_token_id_lt it n1
    have hs2 : ((get_token (get_token it n1).1 n2).1).names[(get_token
        (get_token it n1).1 n2).2.id]? = some n2 :=
      get_token_sound (get_token it n1).1 n2
    obtain ⟨tail, htail⟩ := get_token_extends (get_token it n1).1 n2
    rw [hid, htail, getElem_append_left _ _ _ hlt, hs1] at hs2
    exact hne (Option.some_injective _ hs2)

/-- Witness for C1 at a concrete interner and the names used by
test_get_token. -/
theorem get_token_deterministic_injective_witness :
    ("scene1" ≠ "object1")
    ∧ ((get_token (get_token ⟨[]⟩ "scene1").1 "scene1").2.id
        = (get_token (⟨[]⟩ : TokenInterner) "scene1").2.id)
    ∧ (get_token (get_token ⟨[]⟩ "scene1").1 "object1").2.id
        ≠ (get_token (⟨[]⟩ : TokenInterner) "scene1").2.id := by
  refine ⟨by decide, ?_, ?_⟩
  · exact (get_token_deterministic_injective ⟨[]⟩ "scene1" "scene1" "object1"
      (by decide)).1.1
  · exact (get_token_deterministic_injective ⟨[]⟩ "scene1" "scene1" "object1"
      (by decide)).2

/-! ## Lemmas about the registry -/

theorem regRemove_of_get_none {reg : Registry} {key : SceneKey}
    (h : regGet reg key = none) : regRemove reg key = reg := by
  induction reg with
  | nil => rfl
  | cons e rest ih =>
    obtain ⟨k, r⟩ := e
    by_cases hk : k = key
    · simp [regGet, hk] at h
    · simp [regGet, hk] at h
      simp [regRemove, hk, ih h]

theorem regGet_regRemove (reg : Registry) (key : SceneKey) :
    regGet (regRemove reg key) key = none := by
  induction reg with
  | nil => rfl
  | cons e rest ih =>
    obtain ⟨k, r⟩ := e
    by_cases hk : k = key
    · simp [regRemove, hk, ih]
    · simp [regRemove, regGet, hk, ih]

/-- C5: `remove` is idempotent and total over keys — removing a key that
holds no object is a no-op, and a second `remove` after a successful one
leaves the registry unchanged; `remove` is a total function, so every call
completes without an error. -/
theorem remove_idempotent_total (reg : Registry) (key : SceneKey) :
    (regGet reg key = none → regRemove reg key = reg)
    ∧ regRemove (regRemove reg key) key = regRemove reg key :=
  ⟨fun h => regRemove_of_get_none h,
   regRemove_of_get_none (regGet_regRemove reg key)⟩

/-- Witness for C5: removing the key `(2, 2)`, which holds nothing, from a
one-entry registry is a no-op, and removing `(1, 1)` twice equals removing
it once. -/
theorem remove_idempotent_total_witness :
    regRemove [((1, 1), ⟨ObjectKind.volumeGrid, [7], 3, none⟩)] (2, 2)
      = [((1, 1), ⟨ObjectKind.volumeGrid, [7], 3, none⟩)]
    ∧ regRemove (regRemove [((1, 1),
        (⟨ObjectKind.volumeGrid, [7], 3, none⟩ : ObjectRecord))] (1, 1)) (1, 1)
      = regRemove [((1, 1), ⟨ObjectKind.volumeGrid, [7], 3, none⟩)] (1, 1) :=
  ⟨(remove_idempotent_total
      [((1, 1), ⟨ObjectKind.volumeGrid, [7], 3, none⟩)] (2, 2)).1 (by decide),
   (remove_idempotent_total
      [((1, 1), ⟨ObjectKind.volumeGrid, [7], 3, none⟩)] (1, 1)).2⟩

/-- C6: `map_params` returns `none` — with the state unchanged and no
error — whenever the addressed object has no shader parameter block
(including when the object is absent), and `unmap_params` without a prior
successful `map_params` on the pair is a no-op. -/
theorem map_params_none_unmap_noop (s : ParamState) (key : SceneKey) :
    ((regGet s.registry key).bind (fun r => r.shaderParams) = none →
      map_params s key = (none, s))
    ∧ (key ∉ s.mapped → unmap_params s key = s) := by
  constructor
  · intro h
    unfold map_params
    cases hr : regGet s.registry key with
    | none => rfl
    | some r =>
      rw [hr] at h
      simp only [Option.some_bind] at h
      simp [h]
  · intro h
    unfold unmap_params
    simp [h]

/-- Witness for C6: an object without a parameter block yields `none` from
`map_params`, and `unmap_params` on a never-mapped pair is a no-op. -/
theorem map_params_none_unmap_noop_witness :
    map_params ⟨[((1, 2), ⟨ObjectKind.volumeGrid, [7], 3, none⟩)], []⟩ (1, 2)
      = (none, ⟨[((1, 2), ⟨ObjectKind.volumeGrid, [7], 3, none⟩)], []⟩)
    ∧ unmap_params ⟨[((1, 2), ⟨ObjectKind.volumeGrid, [7], 3, none⟩)], []⟩ (1, 2)
      = ⟨[((1, 2), ⟨ObjectKind.volumeGrid, [7], 3, none⟩)], []⟩ :=
  ⟨(map_params_none_unmap_noop
      ⟨[((1, 2), ⟨ObjectKind.volumeGrid, [7], 3, none⟩)], []⟩ (1, 2)).1 (by decide),
   (map_params_none_unmap_noop
      ⟨[((1, 2), ⟨ObjectKind.volumeGrid, [7], 3, none⟩)], []⟩ (1, 2)).2 (by decide)⟩

theorem regGet_regAdd (reg : Registry) (key : SceneKey) (r : ObjectRecord) :
    regGet (regAdd reg key r) key = some r := by
  induction reg with
  | nil => simp [regAdd, regGet]
  | cons e rest ih =>
    obtain ⟨k, r0⟩ := e
    by_cases hk : k = key
    · simp [regAdd, hk, regGet]
    · simp [regAdd, hk, regGet, ih]

/-- C9: registry replacement is atomic with respect to readers — at every
registry state visible during an `add` that replaces the record under a
key, a concurrent `get` returns either the complete old record or the
complete new record, never a mixture of the two and never a partially
constructed record. -/
theorem add_replace_atomic (reg : Registry) (key : SceneKey)
    (oldRec newRec : ObjectRecord) (hold : regGet reg key = some oldRec) :
    ∀ snap ∈ addObserved reg key newRec, ∀ r,
      regGet snap key = some r → r = oldRec ∨ r = newRec := by
  have hobs : addObserved reg key newRec
      = [reg, reg, reg, reg, reg, regAdd reg key newRec] := rfl
  rw [hobs]
  intro snap hsnap r hr
  simp only [List.mem_cons, List.not_mem_nil, or_false] at hsnap
  rcases hsnap with rfl | rfl | rfl | rfl | rfl | rfl
  all_goals first
  | (left; rw [hold] at hr; exact (Option.some_injective _ hr).symm)
  | (right; rw [regGet_regAdd] at hr; exact (Option.some_injective _ hr).symm)

/-- Witness for C9 at a concrete one-entry registry, observing the
snapshot after the publish step. -/
theorem add_replace_atomic_witness :
    regGet [((1, 2), ⟨ObjectKind.volumeGrid, [7], 3, none⟩)] (1, 2)
      = some ⟨ObjectKind.volumeGrid, [7], 3, none⟩
    ∧ ((⟨ObjectKind.rawArray, [9], 5, some [1]⟩ : ObjectRecord)
        = ⟨ObjectKind.volumeGrid, [7], 3, none⟩
      ∨ (⟨ObjectKind.rawArray, [9], 5, some [1]⟩ : ObjectRecord)
        = ⟨ObjectKind.rawArray, [9], 5, some [1]⟩) :=
  ⟨by decide,
   add_replace_atomic [((1, 2), ⟨ObjectKind.volumeGrid, [7], 3, none⟩)] (1, 2)
     ⟨ObjectKind.volumeGrid, [7], 3, none⟩ ⟨ObjectKind.rawArray, [9], 5, some [1]⟩
     (by decide)
     (regAdd [((1, 2), ⟨ObjectKind.volumeGrid, [7], 3, none⟩)] (1, 2)
       ⟨ObjectKind.rawArray, [9], 5, some [1]⟩)
     (by decide) ⟨ObjectKind.rawArray, [9], 5, some [1]⟩ (by decide)⟩

/-! ## Lemmas about the synchronization protocol -/

theorem wait_completes (fuel : Nat) (env : RenderLoop)
    (hrun : env.running = true) :
    (wait_for_shader_params_sync fuel env).1 = .synced
    ∨ (wait_for_shader_params_sync fuel env).1 = .syncTimeout := by
  induction fuel generalizing env with
  | zero =>
    obtain ⟨running, s⟩ := env
    subst hrun
    simp [wait_for_shader_params_sync]
  | succ f ih =>
    obtain ⟨running, s⟩ := env
    subst hrun
    cases s with
    | synced => simp [wait_for_shader_params_sync]
    | idle => simp [wait_for_shader_params_sync]
    | setup =>
      simpa [wait_for_shader_params_sync, renderLoopStep] using
        ih ⟨true, .dispatched⟩ rfl
    | dispatched =>
      simpa [wait_for_shader_params_sync, renderLoopStep] using
        ih ⟨true, .syncRequested⟩ rfl
    | syncRequested =>
      simpa [wait_for_shader_params_sync, renderLoopStep] using
        ih ⟨true, .synced⟩ rfl

theorem wait_enough_fuel (k : Nat) (env : RenderLoop)
    (hrun : env.running = true) :
    (wait_for_shader_params_sync (k + 4) env).1 = .synced := by
  obtain ⟨running, s⟩ := env
  subst hrun
  cases s <;> simp [wait_for_shader_params_sync, renderLoopStep]

/-- C7: `wait_for_shader_params_sync` always terminates with a bounded
wait — when the render loop is not running (after the idempotent `stop`)
it returns a render-loop-stopped result immediately with the state
untouched, and when the loop runs it returns `synced` or `syncTimeout`,
reaching `synced` whenever at least four loop iterations fit in the
bound, from every pending parameter-swap state. -/
theorem wait_for_shader_params_sync_bounded
    (envStopped envRunning : RenderLoop) (fuel : Nat)
    (hstop : envStopped.running = false) (hrun : envRunning.running = true) :
    editorStop (editorStop envStopped) = editorStop envStopped
    ∧ wait_for_shader_params_sync fuel envStopped
        = (.renderLoopStopped, envStopped)
    ∧ ((wait_for_shader_params_sync fuel envRunning).1 = .synced
      ∨ (wait_for_shader_params_sync fuel envRunning).1 = .syncTimeout)
    ∧ (4 ≤ fuel → (wait_for_shader_params_sync fuel envRunning).1 = .synced) := by
  refine ⟨rfl, ?_, wait_completes fuel envRunning hrun, ?_⟩
  · unfold wait_for_shader_params_sync
    simp [hstop]
  · intro hfuel
    obtain ⟨k, rfl⟩ : ∃ k, fuel = k + 4 := ⟨fuel - 4, by omega⟩
    exact wait_enough_fuel k envRunning hrun

/-- Witness for C7 with a stopped loop and a running loop, both holding a
pending swap request, at the bound four. -/
theorem wait_for_shader_params_sync_bounded_witness :
    wait_for_shader_params_sync 4 ⟨false, .syncRequested⟩
      = (.renderLoopStopped, ⟨false, .syncRequested⟩)
    ∧ (wait_for_shader_params_sync 4 ⟨true, .syncRequested⟩).1 = .synced :=
  ⟨(wait_for_shader_params_sync_bounded ⟨false, .syncRequested⟩
      ⟨true, .syncRequested⟩ 4 rfl rfl).2.1,
   (wait_for_shader_params_sync_bounded ⟨false, .syncRequested⟩
      ⟨true, .syncRequested⟩ 4 rfl rfl).2.2.2 (by decide)⟩

/-! ## Compute dispatch theorems -/

/-- C2: for the matrix-read kernel compiled with `row_major = false` over a
row-major-initialized constants matrix, the output element at `col*4 + row`
equals the source element at `row*4 + col` for every row and column below
four; with `row_major = true` the mapping is the identity.  The target is
universally quantified, so this holds on the Vulkan and CPU targets
alike. -/
theorem matrix_read_marshalling (target : CompileTarget) (host : Nat → Int)
    (row col : Nat) (hrow : row < 4) (hcol : col < 4) :
    dispatch_matrix .readIn target false host (col * 4 + row)
      = host (row * 4 + col)
    ∧ dispatch_matrix .readIn target true host (row * 4 + col)
      = host (row * 4 + col) := by
  constructor
  · have h1 : (col * 4 + row) / 4 = col := by omega
    have h2 : (col * 4 + row) % 4 = row := by omega
    simp [dispatch_matrix, marshalledConstantMatrix, h1, h2]
  · have h1 : (row * 4 + col) / 4 = row := by omega
    have h2 : (row * 4 + col) % 4 = col := by omega
    simp [dispatch_matrix, marshalledConstantMatrix, h1, h2]

/-- Witness for C2 on the Vulkan target with the arange constants matrix
at row 1, column 2. -/
theorem matrix_read_marshalling_witness :
    dispatch_matrix .readIn CompileTarget.vulkan false constants_data (2 * 4 + 1)
      = constants_data (1 * 4 + 2)
    ∧ dispatch_matrix .readIn CompileTarget.vulkan true constants_data (1 * 4 + 2)
      = constants_data (1 * 4 + 2) :=
  matrix_read_marshalling CompileTarget.vulkan constants_data 1 2
    (by decide) (by decide)

/-- C3 counterexample: with `row_major = false` on the CPU target, the
matrix-constructing kernel's output at index 1 is the row-major value 1
(as asserted by the `out_cpu_col` case of test_matrix.py), not the
column-major value 4 the claim predicts for a CPU kernel's matrix
output. -/
theorem cpu_construct_output_counterexample :
    dispatch_matrix .construct CompileTarget.cpu false constants_data 1
      ≠ specClaimedCpuConstructOutput 1 := by
  decide

/-- C3 (amended): the `row_major` flag affects only the input marshalling
of matrix data on both targets — a kernel that constructs its own matrix
writes it to the output buffer in row-major order regardless of the flag
and of the target, the read kernel's output is the transpose exactly when
`row_major = false`, and each kernel behaves identically on the CPU and
Vulkan targets. -/
theorem matrix_marshalling_input_only (target : CompileTarget) (b : Bool)
    (idx : Nat) (host : Nat → Int) :
    dispatch_matrix .construct target b host idx = Int.ofNat idx
    ∧ dispatch_matrix .readIn target false constants_data idx
        = constants_data ((idx % 4) * 4 + idx / 4)
    ∧ dispatch_matrix .readIn target true constants_data idx
        = constants_data idx
    ∧ dispatch_matrix .construct CompileTarget.cpu b host idx
        = dispatch_matrix .construct CompileTarget.vulkan b host idx
    ∧ dispatch_matrix .readIn CompileTarget.cpu b host idx
        = dispatch_matrix .readIn CompileTarget.vulkan b host idx := by
  refine ⟨rfl, ?_, ?_, rfl, rfl⟩
  · simp [dispatch_matrix, marshalledConstantMatrix]
  · have h : idx / 4 * 4 + idx % 4 = idx := by omega
    simp [dispatch_matrix, marshalledConstantMatrix, constants_data, h]

/-- C4: dispatching the add-constant kernel over the eight integers
`[0..7]` with constant 4 on the CPU target yields `[4..11]`, and the
Vulkan dispatch of the same kernel over the same input produces a
content-equal output buffer. -/
theorem add_constant_backend_equivalence :
    cpu_execute_add 4 [0, 1, 2, 3, 4, 5, 6, 7] [0, 0, 0, 0, 0, 0, 0, 0] 1 8
      = [4, 5, 6, 7, 8, 9, 10, 11]
    ∧ vulkan_dispatch_add 4 [0, 1, 2, 3, 4, 5, 6, 7] [0, 0, 0, 0, 0, 0, 0, 0] 1 8
      = cpu_execute_add 4 [0, 1, 2, 3, 4, 5, 6, 7] [0, 0, 0, 0, 0, 0, 0, 0] 1 8 := by
  constructor <;> rfl

/-! ## Python wrapper theorems -/

/-- C8 counterexample: destroying an `Editor` whose native handle is still
set does make a native call from the destructor — `__del__` invokes the
native `shutdown`. -/
theorem del_native_call_counterexample :
    (editorDel ⟨some 0⟩).1 ≠ ([] : List NativeCall) := by
  decide

/-- C8 (amended): `Editor.__del__` calls the native `shutdown` as a
fallback exactly when the editor handle is still live, and makes no native
call once the references have been cleared — the pattern the tests and
conftest use before interpreter shutdown — or on a repeated destruction;
the destructor itself never propagates an error (it is a total function
that swallows exceptions) and always leaves the handle cleared. -/
theorem del_teardown (s : PyEditor) (h : s.editorHandle ≠ none) :
    (editorDel s).1 = [NativeCall.shutdown]
    ∧ (editorDel (clearNativeRefs s)).1 = []
    ∧ (editorDel (editorDel s).2).1 = []
    ∧ (editorDel s).2.editorHandle = none := by
  cases hs : s.editorHandle with
  | none => exact absurd hs h
  | some p => exact ⟨by simp [editorDel, hs], rfl, by simp [editorDel, hs], by simp [editorDel, hs]⟩

/-- Witness for C8 at an editor whose handle is still set. -/
theorem del_teardown_witness :
    (editorDel ⟨some 7⟩).1 = [NativeCall.shutdown]
    ∧ (editorDel (clearNativeRefs ⟨some 7⟩)).1 = [] :=
  ⟨(del_teardown ⟨some 7⟩ (by decide)).1, (del_teardown ⟨some 7⟩ (by decide)).2.1⟩

theorem editorShow_never_raises (config : Option EditorConfig)
    (getDevice : Except PyError Nat)
    (native : Nat → EditorConfig → Except PyError Unit) :
    (editorShow config getDevice native).raised = none := by
  simp only [editorShow]
  split
  · rfl
  · split <;> rfl

theorem editorStart_never_raises (config : Option EditorConfig)
    (getDevice : Except PyError Nat)
    (native : Nat → EditorConfig → Except PyError Unit) :
    (editorStart config getDevice native).raised = none := by
  simp only [editorStart]
  split
  · rfl
  · split <;> rfl

theorem editorShow_invoked (config : Option EditorConfig)
    (getDevice : Except PyError Nat)
    (native : Nat → EditorConfig → Except PyError Unit) :
    (editorShow config getDevice native).invoked = none
    ∨ (editorShow config getDevice native).invoked
        = some (config.getD defaultEditorConfig) := by
  simp only [editorShow]
  split
  · exact Or.inl rfl
  · split
    · exact Or.inr rfl
    · exact Or.inr rfl

theorem editorStart_invoked (config : Option EditorConfig)
    (getDevice : Except PyError Nat)
    (native : Nat → EditorConfig → Except PyError Unit) :
    (editorStart config getDevice native).invoked = none
    ∨ (editorStart config getDevice native).invoked
        = some (config.getD defaultEditorConfig) := by
  simp only [editorStart]
  split
  · exact Or.inl rfl
  · split
    · exact Or.inr rfl
    · exact Or.inr rfl

/-- C10: `Editor.show` and `Editor.start` never propagate an exception to
the caller — with `config = None` the native call receives the default
config (ip 127.0.0.1, port 8080, headless and streaming false), and any
exception raised while fetching the device or invoking the native function
is caught and printed as a single error line, after which the method
returns normally. -/
theorem show_start_catch_all (config : Option EditorConfig)
    (getDeviceAny : Except PyError Nat)
    (nativeAny native : Nat → EditorConfig → Except PyError Unit)
    (dev : Nat) (e : PyError)
    (hnat : native dev (config.getD defaultEditorConfig) = Except.error e) :
    (editorShow config getDeviceAny nativeAny).raised = none
    ∧ (editorStart config getDeviceAny nativeAny).raised = none
    ∧ ((editorShow none getDeviceAny nativeAny).invoked = none
      ∨ (editorShow none getDeviceAny nativeAny).invoked = some defaultEditorConfig)
    ∧ ((editorStart none getDeviceAny nativeAny).invoked = none
      ∨ (editorStart none getDeviceAny nativeAny).invoked = some defaultEditorConfig)
    ∧ (editorShow config (Except.error e) nativeAny).printed
        = ["Error: Editor runtime error (" ++ pyErrorText e ++ ")"]
    ∧ (editorShow config (Except.ok dev) native).printed
        = ["Error: Editor runtime error (" ++ pyErrorText e ++ ")"]
    ∧ (editorStart config (Except.ok dev) native).printed
        = ["Error: Editor start error (" ++ pyErrorText e ++ ")"] := by
  refine ⟨editorShow_never_raises config getDeviceAny nativeAny,
    editorStart_never_raises config getDeviceAny nativeAny,
    editorShow_invoked none getDeviceAny nativeAny,
    editorStart_invoked none getDeviceAny nativeAny, ?_, ?_, ?_⟩
  · simp [editorShow]
  · simp [editorShow, hnat]
  · simp [editorStart, hnat]

/-- Witness for C10 with no config and a native call that raises. -/
theorem show_start_catch_all_witness :
    (editorShow none (Except.ok 0)
        (fun _ _ => Except.error (PyError.exc "boom"))).raised = none
    ∧ (editorShow none (Except.ok 0)
        (fun _ _ => Except.error (PyError.exc "boom"))).printed
      = ["Error: Editor runtime error (boom)"] :=
  ⟨(show_start_catch_all none (Except.ok 0)
      (fun _ _ => Except.error (PyError.exc "boom"))
      (fun _ _ => Except.error (PyError.exc "boom")) 0 (PyError.exc "boom")
      rfl).1,
   (show_start_catch_all none (Except.ok 0)
      (fun _ _ => Except.error (PyError.exc "boom"))
      (fun _ _ => Except.error (PyError.exc "boom")) 0 (PyError.exc "boom")
      rfl).2.2.2.2.2.1⟩

end NanovdbEditor
